import Mathlib

/-! Shallow embedding of the Drive subsystem of Team801 robot-code-2026:
src/subsystems/drive.py together with the constants of src/utils/constants.py.
The Phoenix 6 library, the TalonFX handles, the optional Tuner-generated
drivetrain object and the optional autonomous factory are modelled by an
explicit environment: every fallible call site of the Python code receives an
oracle describing its outcome (success, or the message of the raised
exception), and successful hardware writes as well as warning reports are
recorded in an event trace.  Numeric duty cycles are modelled over the
rationals. -/

namespace Drive801

/-- CAN id pair of one swerve module (utils/constants.py, SwerveModuleCanIds). -/
structure SwerveModuleCanIds where
  drive_motor_id : Nat
  steer_motor_id : Nat
deriving DecidableEq

namespace DriveConstants

/-- Front left module ids (constants.py). -/
def FRONT_LEFT : SwerveModuleCanIds := ⟨1, 11⟩

/-- Front right module ids. -/
def FRONT_RIGHT : SwerveModuleCanIds := ⟨2, 12⟩

/-- Back left module ids. -/
def BACK_LEFT : SwerveModuleCanIds := ⟨3, 13⟩

/-- Back right module ids. -/
def BACK_RIGHT : SwerveModuleCanIds := ⟨4, 14⟩

/-- The configured module order: front left, front right, back left, back right. -/
def MODULES : List SwerveModuleCanIds := [FRONT_LEFT, FRONT_RIGHT, BACK_LEFT, BACK_RIGHT]

/-- Shared CAN bus name. -/
def CANBUS_NAME : String := "rio"

/-- Deadband threshold of the translation axes. -/
def TRANSLATION_DEADBAND : ℚ := 0.08

/-- Deadband threshold of the rotation axis. -/
def ROTATION_DEADBAND : ℚ := 0.08

/-- Percent-output scale of the translation axes. -/
def MAX_TRANSLATION_OUTPUT : ℚ := 0.5

/-- Percent-output scale of the rotation axis. -/
def MAX_ROTATION_OUTPUT : ℚ := 0.4

end DriveConstants

/-- Outcome of calling into foreign Python code that may raise: a value, a
TypeError (with its rendered message), or any other exception with its
message. -/
inductive PyResult (α : Type) where
  | ok : α → PyResult α
  | typeError : String → PyResult α
  | raises : String → PyResult α

/-- A command object obtained from a delegate or factory; the schedulable flag
records whether the object has a schedule attribute. -/
structure ExtCmd where
  id : Nat
  schedulable : Bool
deriving DecidableEq

/-- Value returned by get_autonomous_command: one of the two InstantCommand
no-op variants built inline, or an object obtained from the delegate or the
factory. -/
inductive Cmd where
  | instantNone : Cmd
  | instantStop : Cmd
  | obj : ExtCmd → Cmd
deriving DecidableEq

/-- Whether the returned command object is schedulable; the InstantCommand
variants always are. -/
def Cmd.schedulable : Cmd → Bool
  | .instantNone => true
  | .instantStop => true
  | .obj c => c.schedulable

/-- Observable effects of the subsystem: a successful set_control call on the
motor with the given CAN id, and a wpilib.reportWarning. -/
inductive Event where
  | write : Nat → ℚ → Event
  | warn : String → Event
deriving DecidableEq

/-- Whether an event is a hardware write. -/
def Event.isWrite : Event → Bool
  | .write _ _ => true
  | .warn _ => false

/-- Behaviour of a discovered Tuner drivetrain object: whether it has a
callable drive attribute and what a call to it does, and likewise for the
autonomous-command getter. -/
structure TunerDrivetrain where
  has_drive : Bool
  drive_beh : ℚ → ℚ → ℚ → Bool → PyResult Unit
  has_auto_getter : Bool
  auto_beh : PyResult (Option ExtCmd)

/-- Behaviour of a discovered build_autonomous_command factory: outcome of the
zero-argument call and of the retry that passes the subsystem. -/
structure AutoFactory where
  call_zero : PyResult (Option ExtCmd)
  call_one : PyResult (Option ExtCmd)

/-- Outcome of probing one candidate location for the Tuner drivetrain class:
the module is missing (ModuleNotFoundError, silently skipped), the import
itself raises another error (not caught by the code), the class attribute is
missing, the class constructs, or construction raises. -/
inductive DrivetrainProbe where
  | moduleMissing : DrivetrainProbe
  | importRaises : String → DrivetrainProbe
  | symbolMissing : DrivetrainProbe
  | constructed : TunerDrivetrain → DrivetrainProbe
  | constructFail : String → DrivetrainProbe

/-- Outcome of probing one candidate location for the autonomous factory. -/
inductive FactoryProbe where
  | moduleMissing : FactoryProbe
  | importRaises : String → FactoryProbe
  | notCallable : FactoryProbe
  | found : AutoFactory → FactoryProbe

/-- The environment: availability of the Phoenix 6 imports, the outcome of
each TalonFX construction (None means success, otherwise the exception
message), the outcome of each set_control call keyed by motor id and written
value, and the per-candidate outcomes of the two discovery probes. -/
structure Env where
  phoenix_available : Bool
  talon_ctor : Nat → String → Option String
  set_control : Nat → ℚ → Option String
  drivetrain_probe : List DrivetrainProbe
  factory_probe : List FactoryProbe

/-- The mutable state of the Drive object (drive.py, Drive.__init__ fields). -/
@[ext]
structure DriveState where
  enabled : Bool
  disable_reason : Option String
  disable_reported : Bool
  tuner_drivetrain : Option TunerDrivetrain
  autonomous_factory : Option AutoFactory
  drive_motors : List Nat
  steer_motors : List Nat

/-- Drive._disable: set enabled to false, record the reason, and report a
warning unless one was already reported (drive.py lines 55 to 60).  Note the
reason field is overwritten unconditionally; only the warning is guarded. -/
def disable (s : DriveState) (reason : String) : DriveState × List Event :=
  let s1 := { s with enabled := false, disable_reason := some reason }
  if s1.disable_reported then (s1, [])
  else ({ s1 with disable_reported := true }, [.warn reason])

/-- The candidate locations probed for the Tuner drivetrain class
(drive.py lines 86 to 90). -/
def drivetrain_candidates : List (String × String) :=
  [("generated.command_swerve_drivetrain", "CommandSwerveDrivetrain"),
   ("subsystems.command_swerve_drivetrain", "CommandSwerveDrivetrain"),
   ("command_swerve_drivetrain", "CommandSwerveDrivetrain")]

/-- The candidate locations probed for the autonomous factory
(drive.py lines 112 to 116). -/
def factory_candidates : List (String × String) :=
  [("subsystems.tuner_autonomous", "build_autonomous_command"),
   ("generated.tuner_autonomous", "build_autonomous_command"),
   ("tuner_autonomous", "build_autonomous_command")]

/-- Loop body of Drive._try_create_tuner_drivetrain (drive.py lines 91 to 109):
a ModuleNotFoundError or a missing attribute skips to the next candidate, any
other import-time error propagates (only ModuleNotFoundError is caught), a
successful construction wins, and a failed construction warns and ends the
whole search with None. -/
def try_create_tuner_drivetrain_loop :
    List ((String × String) × DrivetrainProbe) →
    Except String (Option TunerDrivetrain × List Event)
  | [] => .ok (none, [])
  | ((module_name, class_name), o) :: rest =>
    match o with
    | .moduleMissing => try_create_tuner_drivetrain_loop rest
    | .importRaises msg => .error msg
    | .symbolMissing => try_create_tuner_drivetrain_loop rest
    | .constructed dt => .ok (some dt, [])
    | .constructFail msg =>
        .ok (none, [.warn ("Found " ++ module_name ++ "." ++ class_name ++
          " but failed to construct it: " ++ msg)])

/-- Drive._try_create_tuner_drivetrain applied to the configured candidates. -/
def try_create_tuner_drivetrain (env : Env) :
    Except String (Option TunerDrivetrain × List Event) :=
  try_create_tuner_drivetrain_loop (drivetrain_candidates.zip env.drivetrain_probe)

/-- Loop body of Drive._try_create_tuner_auto_factory (drive.py lines 117 to
126): ModuleNotFoundError and a missing or non-callable attribute skip to the
next candidate, any other import-time error propagates, and the first callable
attribute wins. -/
def try_create_tuner_auto_factory_loop :
    List ((String × String) × FactoryProbe) → Except String (Option AutoFactory)
  | [] => .ok none
  | (_, o) :: rest =>
    match o with
    | .moduleMissing => try_create_tuner_auto_factory_loop rest
    | .importRaises msg => .error msg
    | .notCallable => try_create_tuner_auto_factory_loop rest
    | .found f => .ok (some f)

/-- Drive._try_create_tuner_auto_factory applied to the configured candidates. -/
def try_create_tuner_auto_factory (env : Env) : Except String (Option AutoFactory) :=
  try_create_tuner_auto_factory_loop (factory_candidates.zip env.factory_probe)

/-- Loop of Drive._init_hardware (drive.py lines 67 to 82): for each module in
order construct the drive handle then the steer handle; on the first failure
clear both sequences, disable with a reason citing the bus name and the
underlying fault, and stop. -/
def init_hardware_loop (env : Env) :
    List SwerveModuleCanIds → DriveState → DriveState × List Event
  | [], s => (s, [])
  | module :: rest, s =>
    match env.talon_ctor module.drive_motor_id DriveConstants.CANBUS_NAME with
    | some exc =>
        disable { s with drive_motors := [], steer_motors := [] }
          ("Failed to initialize swerve hardware on CAN bus " ++
            DriveConstants.CANBUS_NAME ++ ": " ++ exc)
    | none =>
      let s1 := { s with drive_motors := s.drive_motors ++ [module.drive_motor_id] }
      match env.talon_ctor module.steer_motor_id DriveConstants.CANBUS_NAME with
      | some exc =>
          disable { s1 with drive_motors := [], steer_motors := [] }
            ("Failed to initialize swerve hardware on CAN bus " ++
              DriveConstants.CANBUS_NAME ++ ": " ++ exc)
      | none =>
          init_hardware_loop env rest
            { s1 with steer_motors := s1.steer_motors ++ [module.steer_motor_id] }

/-- Drive._init_hardware (drive.py lines 62 to 82). -/
def init_hardware (env : Env) (s : DriveState) : DriveState × List Event :=
  if env.phoenix_available then init_hardware_loop env DriveConstants.MODULES s
  else disable s "Phoenix 6 TalonFX class unavailable; swerve drive disabled."

/-- Drive.__init__ (drive.py lines 34 to 53).  The factory probe runs first;
then, if the Phoenix 6 imports failed, the subsystem disables immediately;
otherwise the drivetrain probe runs and the hardware is initialized.  An
uncaught probe exception propagates out of the constructor. -/
def drive_init (env : Env) : Except String (DriveState × List Event) :=
  match try_create_tuner_auto_factory env with
  | .error msg => .error msg
  | .ok fac =>
    let s : DriveState :=
      { enabled := true, disable_reason := none, disable_reported := false,
        tuner_drivetrain := none, autonomous_factory := fac,
        drive_motors := [], steer_motors := [] }
    if env.phoenix_available then
      match try_create_tuner_drivetrain env with
      | .error msg => .error msg
      | .ok (dt, evs1) =>
        let r := init_hardware env { s with tuner_drivetrain := dt }
        .ok (r.1, evs1 ++ r.2)
    else
      .ok (disable s "Phoenix 6 is not available; running with swerve drive disabled.")

/-- Drive._apply_deadband (drive.py lines 128 to 131). -/
def apply_deadband (value deadband : ℚ) : ℚ :=
  if |value| < deadband then 0 else value

/-- Drive._clamp (drive.py lines 133 to 134). -/
def clamp (value : ℚ) : ℚ :=
  max (-1) (min 1 value)

/-- A try-set_control-except-disable loop over motor and value pairs, shared
shape of the write loops of Drive.drive and Drive.stop: a successful call is
recorded as a write event, the first failure disables the subsystem with the
given message prefix and the exception message and aborts the rest; the Bool
tells whether the loop completed. -/
def set_control_loop (env : Env) (failmsg : String) :
    List (Nat × ℚ) → DriveState → DriveState × List Event × Bool
  | [], s => (s, [], true)
  | (motor, output) :: rest, s =>
    match env.set_control motor output with
    | some exc =>
        ((disable s (failmsg ++ exc)).1, (disable s (failmsg ++ exc)).2, false)
    | none =>
        let r := set_control_loop env failmsg rest s
        (r.1, .write motor output :: r.2.1, r.2.2)

/-- The two write loops shared by Drive.drive and Drive.stop: write the given
drive-motor pairs, and if that completes, write the steer value to every steer
handle of the current state; each loop disables and aborts on the first
failure with its own message prefix. -/
def write_phase (env : Env) (msg1 msg2 : String) (drive_pairs : List (Nat × ℚ))
    (steer_value : ℚ) (s : DriveState) : DriveState × List Event :=
  let r1 := set_control_loop env msg1 drive_pairs s
  if r1.2.2 then
    let r2 := set_control_loop env msg2
      (r1.1.steer_motors.map (fun m => (m, steer_value))) r1.1
    (r2.1, r1.2.1 ++ r2.2.1)
  else (r1.1, r1.2.1)

/-- The fallback mixing path of Drive.drive (drive.py lines 161 to 194):
deadband, scale, mix, clamp, write the four drive duty cycles in module order,
then write the shared steer duty cycle to every steer handle. -/
def drive_builtin (env : Env) (s : DriveState)
    (x_displacement y_displacement rotation : ℚ) : DriveState × List Event :=
  let x := apply_deadband x_displacement DriveConstants.TRANSLATION_DEADBAND
  let y := apply_deadband y_displacement DriveConstants.TRANSLATION_DEADBAND
  let omega := apply_deadband rotation DriveConstants.ROTATION_DEADBAND
  let x := x * DriveConstants.MAX_TRANSLATION_OUTPUT
  let y := y * DriveConstants.MAX_TRANSLATION_OUTPUT
  let omega := omega * DriveConstants.MAX_ROTATION_OUTPUT
  let drive_outputs := [clamp (x + y + omega), clamp (x - y - omega),
                        clamp (x - y + omega), clamp (x + y - omega)]
  if env.phoenix_available then
    write_phase env "Swerve drive output failed: " "Swerve steer output failed: "
      (s.drive_motors.zip drive_outputs) (clamp omega) s
  else disable s "Phoenix 6 DutyCycleOut unavailable during drive call."

/-- Drive.drive (drive.py lines 136 to 194): no-op when disabled; if the
delegate exposes a callable drive, call it, returning on success, falling
through to the built-in path on TypeError, and disabling on any other
exception; otherwise run the built-in mixing path. -/
def drive (env : Env) (s : DriveState)
    (x_displacement y_displacement rotation : ℚ) (field_oriented : Bool) :
    DriveState × List Event :=
  if s.enabled then
    match s.tuner_drivetrain with
    | some dt =>
      if dt.has_drive then
        match dt.drive_beh x_displacement y_displacement rotation field_oriented with
        | .ok _ => (s, [])
        | .typeError _ => drive_builtin env s x_displacement y_displacement rotation
        | .raises exc => disable s ("Tuner drivetrain drive call failed: " ++ exc)
      else drive_builtin env s x_displacement y_displacement rotation
    | none => drive_builtin env s x_displacement y_displacement rotation
  else (s, [])

/-- Drive.stop (drive.py lines 196 to 210): no-op if DutyCycleOut is
unavailable; otherwise write zero to every drive handle then every steer
handle, disabling and aborting on the first failure.  Note it does not check
the enabled flag. -/
def stop (env : Env) (s : DriveState) : DriveState × List Event :=
  if env.phoenix_available then
    write_phase env "Swerve stop failed on drive motor: "
      "Swerve stop failed on steer motor: "
      (s.drive_motors.map (fun m => (m, (0 : ℚ)))) 0 s
  else (s, [])

/-- The last resort of Drive.get_autonomous_command (drive.py lines 243 to
247): warn and return the stop command. -/
def auto_warn_fallback (s : DriveState) : Cmd × DriveState × List Event :=
  (.instantStop, s,
    [.warn "No Phoenix 6 Tuner autonomous command source found; using stop command."])

/-- The schedulability check of Drive.get_autonomous_command (drive.py lines
240 to 241): a non-None result with a schedule attribute is returned, anything
else falls through to the warning fallback. -/
def auto_check_command (s : DriveState) (command : Option ExtCmd) :
    Cmd × DriveState × List Event :=
  match command with
  | some c => if c.schedulable then (.obj c, s, []) else auto_warn_fallback s
  | none => auto_warn_fallback s

/-- The factory invocation of Drive.get_autonomous_command (drive.py lines 228
to 238): call with zero arguments, retry with the subsystem on TypeError, and
on any other exception disable and return the no-op command. -/
def auto_factory_call (s : DriveState) (factory : AutoFactory) :
    Cmd × DriveState × List Event :=
  match factory.call_zero with
  | .ok command => auto_check_command s command
  | .typeError _ =>
    match factory.call_one with
    | .ok command => auto_check_command s command
    | .typeError exc =>
        (.instantNone, disable s ("Autonomous factory invocation failed: " ++ exc))
    | .raises exc =>
        (.instantNone, disable s ("Autonomous factory invocation failed: " ++ exc))
  | .raises exc =>
      (.instantNone, disable s ("Autonomous factory invocation failed: " ++ exc))

/-- Tier 2 and tier 3 of Drive.get_autonomous_command (drive.py lines 227 to
247): invoke the discovered factory if any, otherwise warn and return the stop
command. -/
def auto_factory_tier (s : DriveState) : Cmd × DriveState × List Event :=
  match s.autonomous_factory with
  | some factory => auto_factory_call s factory
  | none => auto_warn_fallback s

/-- Tier 1 of Drive.get_autonomous_command (drive.py lines 216 to 225): ask
the delegate getter if it is callable; an exception disables and yields the
no-op command; a schedulable result is returned; anything else falls through
to the factory tier. -/
def auto_getter_tier (s : DriveState) (dt : TunerDrivetrain) :
    Cmd × DriveState × List Event :=
  if dt.has_auto_getter then
    match dt.auto_beh with
    | .ok command =>
      match command with
      | some c => if c.schedulable then (.obj c, s, []) else auto_factory_tier s
      | none => auto_factory_tier s
    | .typeError exc =>
        (.instantNone, disable s ("Tuner drivetrain autonomous getter failed: " ++ exc))
    | .raises exc =>
        (.instantNone, disable s ("Tuner drivetrain autonomous getter failed: " ++ exc))
  else auto_factory_tier s

/-- Drive.get_autonomous_command (drive.py lines 212 to 247): a no-op command
when disabled; else the delegate tier, then the factory tier, then the
warning fallback. -/
def get_autonomous_command (s : DriveState) : Cmd × DriveState × List Event :=
  if s.enabled then
    match s.tuner_drivetrain with
    | some dt => auto_getter_tier s dt
    | none => auto_factory_tier s
  else (.instantNone, s, [])

/-- One public operation of the session. -/
inductive OpCall where
  | driveOp : ℚ → ℚ → ℚ → Bool → OpCall
  | stopOp : OpCall
  | autoOp : OpCall

/-- Run one public operation, returning the new state and its event trace. -/
def run_op (env : Env) (s : DriveState) : OpCall → DriveState × List Event
  | .driveOp x y r fo => drive env s x y r fo
  | .stopOp => stop env s
  | .autoOp => (get_autonomous_command s).2

/-- Run a sequence of public operations, concatenating the event traces. -/
def run_ops (env : Env) (s : DriveState) : List OpCall → DriveState × List Event
  | [] => (s, [])
  | op :: rest =>
    let (s1, evs1) := run_op env s op
    let (s2, evs2) := run_ops env s1 rest
    (s2, evs1 ++ evs2)

/-- The hardware writes of a trace. -/
def write_events (tr : List Event) : List Event :=
  tr.filter Event.isWrite

/-- The message of the first failing set_control call over a list of motor and
value pairs, if any. -/
def first_fail (env : Env) : List (Nat × ℚ) → Option String
  | [] => none
  | (motor, output) :: rest =>
    match env.set_control motor output with
    | some exc => some exc
    | none => first_fail env rest

/-- An environment where everything is present and succeeds and neither probe
finds anything: no alternate drivetrain, no autonomous factory. -/
def env_clean : Env :=
  { phoenix_available := true, talon_ctor := fun _ _ => none,
    set_control := fun _ _ => none,
    drivetrain_probe := [.moduleMissing, .moduleMissing, .moduleMissing],
    factory_probe := [.moduleMissing, .moduleMissing, .moduleMissing] }

/-- The state produced by construction under env_clean. -/
def clean_state : DriveState :=
  { enabled := true, disable_reason := none, disable_reported := false,
    tuner_drivetrain := none, autonomous_factory := none,
    drive_motors := [1, 2, 3, 4], steer_motors := [11, 12, 13, 14] }

/-- Like env_clean except every set_control call on the motor with CAN id 1
raises. -/
def env_fault : Env :=
  { env_clean with set_control := fun m _ => if m = 1 then some "boom" else none }

/-- A delegate drivetrain whose drive call always raises TypeError. -/
def dt_typeerror : TunerDrivetrain :=
  { has_drive := true, drive_beh := fun _ _ _ _ => .typeError "sig",
    has_auto_getter := false, auto_beh := .ok none }

/-- A delegate drivetrain whose drive call always raises a non-TypeError. -/
def dt_raises : TunerDrivetrain :=
  { has_drive := true, drive_beh := fun _ _ _ _ => .raises "kaput",
    has_auto_getter := false, auto_beh := .ok none }

/-- The clean constructed state with a given alternate drivetrain attached. -/
def state_with_dt (dt : TunerDrivetrain) : DriveState :=
  { clean_state with tuner_drivetrain := some dt }

/-- Like env_clean but with the Phoenix 6 imports unavailable. -/
def env_nophx : Env :=
  { env_clean with phoenix_available := false }

/-- A reachable disabled state: the one left behind by a drive write fault. -/
def disabled_state : DriveState :=
  { enabled := false, disable_reason := some "Swerve drive output failed: boom",
    disable_reported := true, tuner_drivetrain := none, autonomous_factory := none,
    drive_motors := [1, 2, 3, 4], steer_motors := [11, 12, 13, 14] }

/-- What every public operation preserves of the state: the motor sequences
and the discovered capabilities are untouched, and the enabled flag can only
be turned off, never on. -/
def preserves (s t : DriveState) : Prop :=
  t.drive_motors = s.drive_motors ∧ t.steer_motors = s.steer_motors ∧
  t.tuner_drivetrain = s.tuner_drivetrain ∧
  t.autonomous_factory = s.autonomous_factory ∧
  (t.enabled = true → s.enabled = true)

/-- Deadband then scale of a translation axis, as performed by the built-in
path of Drive.drive (drive.py lines 161 to 166). -/
def deadscale_translation (v : ℚ) : ℚ :=
  apply_deadband v DriveConstants.TRANSLATION_DEADBAND *
    DriveConstants.MAX_TRANSLATION_OUTPUT

/-- Deadband then scale of the rotation axis (drive.py lines 163 to 167). -/
def deadscale_rotation (v : ℚ) : ℚ :=
  apply_deadband v DriveConstants.ROTATION_DEADBAND *
    DriveConstants.MAX_ROTATION_OUTPUT

/-- Every clamped value lies in the closed interval from -1 to 1. -/
theorem clamp_bounds (v : ℚ) : -1 ≤ clamp v ∧ clamp v ≤ 1 := by
  unfold clamp
  constructor
  · exact le_max_left _ _
  · exact max_le (by norm_num) (min_le_left _ _)

/-- Disabling never touches the motor sequences nor the discovered
capabilities. -/
theorem disable_preserves (s : DriveState) (r : String) :
    (disable s r).1.drive_motors = s.drive_motors ∧
    (disable s r).1.steer_motors = s.steer_motors ∧
    (disable s r).1.tuner_drivetrain = s.tuner_drivetrain ∧
    (disable s r).1.autonomous_factory = s.autonomous_factory := by
  by_cases h : s.disable_reported <;> simp [disable, h]

/-- Disabling forces the enabled flag off, records the reason, and leaves the
reported flag on. -/
theorem disable_fields (s : DriveState) (r : String) :
    (disable s r).1.enabled = false ∧
    (disable s r).1.disable_reason = some r ∧
    (disable s r).1.disable_reported = true := by
  by_cases h : s.disable_reported <;> simp [disable, h]

/-- Disabling an already disabled and reported state with the reason it
already carries changes nothing and emits nothing. -/
theorem disable_idem (s : DriveState) (r : String)
    (he : s.enabled = false) (hr : s.disable_reason = some r)
    (hp : s.disable_reported = true) :
    disable s r = (s, []) := by
  obtain ⟨e, dr, rp, td, af, dm, sm⟩ := s
  simp only at he hr hp
  subst he hr hp
  simp [disable]

/-- Disabling a state whose warning was already reported emits no event. -/
theorem disable_reported_silent (s : DriveState) (r : String)
    (hp : s.disable_reported = true) :
    (disable s r).2 = [] ∧ (disable s r).1.disable_reported = true := by
  simp [disable, hp]

/-- Characterization of the shared write loop: if no call fails the state is
untouched and every pair is written; otherwise the state is disabled with the
first failure message and exactly the pairs before the failure are written. -/
theorem set_control_loop_spec (env : Env) (msg : String) (l : List (Nat × ℚ))
    (s : DriveState) :
    set_control_loop env msg l s =
      match first_fail env l with
      | none => (s, l.map (fun p => Event.write p.1 p.2), true)
      | some exc =>
          ((disable s (msg ++ exc)).1,
           (l.takeWhile (fun p => (env.set_control p.1 p.2).isNone)).map
             (fun p => Event.write p.1 p.2) ++ (disable s (msg ++ exc)).2,
           false) := by
  induction l with
  | nil => simp [set_control_loop, first_fail]
  | cons p rest ih =>
    obtain ⟨motor, output⟩ := p
    rcases h : env.set_control motor output with _ | exc
    · rw [set_control_loop, first_fail, h]
      simp only [ih]
      rcases hf : first_fail env rest with _ | e
      · simp [List.takeWhile_cons, h]
      · simp [List.takeWhile_cons, h]
    · rw [set_control_loop, first_fail, h]
      simp [List.takeWhile_cons, h]

/-- When every write succeeds the loop writes every pair and keeps the state. -/
theorem set_control_loop_ok (env : Env) (msg : String) (l : List (Nat × ℚ))
    (s : DriveState) (h : first_fail env l = none) :
    set_control_loop env msg l s = (s, l.map (fun p => Event.write p.1 p.2), true) := by
  rw [set_control_loop_spec, h]

/-- In an environment where every set_control call succeeds, no failure shows
up in any write list. -/
theorem first_fail_none (env : Env) (h : ∀ m v, env.set_control m v = none)
    (l : List (Nat × ℚ)) : first_fail env l = none := by
  induction l with
  | nil => rfl
  | cons p rest ih => rw [first_fail, h]; exact ih

/-- The write loop never touches the motor sequences nor the discovered
capabilities, and can only turn the enabled flag off. -/
theorem set_control_loop_preserves (env : Env) (msg : String) (l : List (Nat × ℚ))
    (s : DriveState) :
    (set_control_loop env msg l s).1.drive_motors = s.drive_motors ∧
    (set_control_loop env msg l s).1.steer_motors = s.steer_motors ∧
    (set_control_loop env msg l s).1.tuner_drivetrain = s.tuner_drivetrain ∧
    (set_control_loop env msg l s).1.autonomous_factory = s.autonomous_factory ∧
    ((set_control_loop env msg l s).1.enabled = true → s.enabled = true) := by
  rw [set_control_loop_spec]
  rcases hf : first_fail env l with _ | exc
  · simp
  · have h1 := disable_preserves s (msg ++ exc)
    have h2 := disable_fields s (msg ++ exc)
    simp only
    refine ⟨h1.1, h1.2.1, h1.2.2.1, h1.2.2.2, ?_⟩
    intro h
    rw [h2.1] at h
    exact absurd h (by simp)

/-- The hardware-init loop either appends exactly the configured drive and
steer ids in order, or ends disabled with both sequences empty. -/
theorem init_hardware_loop_spec (env : Env) :
    ∀ (mods : List SwerveModuleCanIds) (s : DriveState),
      (init_hardware_loop env mods s).1 =
          { s with
              drive_motors := s.drive_motors ++ mods.map SwerveModuleCanIds.drive_motor_id,
              steer_motors := s.steer_motors ++ mods.map SwerveModuleCanIds.steer_motor_id } ∨
      ((init_hardware_loop env mods s).1.enabled = false ∧
       (init_hardware_loop env mods s).1.drive_motors = [] ∧
       (init_hardware_loop env mods s).1.steer_motors = []) := by
  intro mods
  induction mods with
  | nil =>
    intro s
    left
    simp [init_hardware_loop]
  | cons m rest ih =>
    intro s
    rw [init_hardware_loop]
    rcases h1 : env.talon_ctor m.drive_motor_id DriveConstants.CANBUS_NAME with _ | exc1
    · rcases h2 : env.talon_ctor m.steer_motor_id DriveConstants.CANBUS_NAME with _ | exc2
      · simp only
        rcases ih { s with
            drive_motors := s.drive_motors ++ [m.drive_motor_id],
            steer_motors := s.steer_motors ++ [m.steer_motor_id] } with h | h
        · left
          rw [h]
          simp
        · right
          exact h
      · right
        simp only
        set s2 : DriveState :=
          { s with drive_motors := s.drive_motors ++ [m.drive_motor_id] }
        have hp := disable_preserves
          { s2 with drive_motors := [], steer_motors := [] }
          ("Failed to initialize swerve hardware on CAN bus " ++
            DriveConstants.CANBUS_NAME ++ ": " ++ exc2)
        have hf := disable_fields
          { s2 with drive_motors := [], steer_motors := [] }
          ("Failed to initialize swerve hardware on CAN bus " ++
            DriveConstants.CANBUS_NAME ++ ": " ++ exc2)
        exact ⟨hf.1, hp.1, hp.2.1⟩
    · right
      simp only
      have hp := disable_preserves
        { s with drive_motors := [], steer_motors := [] }
        ("Failed to initialize swerve hardware on CAN bus " ++
          DriveConstants.CANBUS_NAME ++ ": " ++ exc1)
      have hf := disable_fields
        { s with drive_motors := [], steer_motors := [] }
        ("Failed to initialize swerve hardware on CAN bus " ++
          DriveConstants.CANBUS_NAME ++ ": " ++ exc1)
      exact ⟨hf.1, hp.1, hp.2.1⟩

/-- C1: after Drive construction completes, for every outcome of the Phoenix
library check, the capability probes and the four module handle constructions,
either the subsystem is enabled with the four drive handles 1, 2, 3, 4 and the
four steer handles 11, 12, 13, 14 in configured module order, or it is
disabled with both motor sequences empty; no partially populated state is
reachable. -/
theorem construction_invariant (env : Env) (s : DriveState) (tr : List Event)
    (h : drive_init env = .ok (s, tr)) :
    (s.enabled = true ∧ s.drive_motors = [1, 2, 3, 4] ∧
      s.steer_motors = [11, 12, 13, 14]) ∨
    (s.enabled = false ∧ s.drive_motors = [] ∧ s.steer_motors = []) := by
  unfold drive_init at h
  rcases hfac : try_create_tuner_auto_factory env with msg | fac
  · rw [hfac] at h
    exact absurd h (by simp)
  · rw [hfac] at h
    rcases hpa : env.phoenix_available with _ | _
    · rw [hpa] at h
      simp only [Bool.false_eq_true, if_false, Except.ok.injEq] at h
      right
      set s0 : DriveState :=
        { enabled := true, disable_reason := none, disable_reported := false,
          tuner_drivetrain := none, autonomous_factory := fac,
          drive_motors := [], steer_motors := [] }
      have hp := disable_preserves s0
        "Phoenix 6 is not available; running with swerve drive disabled."
      have hf := disable_fields s0
        "Phoenix 6 is not available; running with swerve drive disabled."
      have hs : s = (disable s0
        "Phoenix 6 is not available; running with swerve drive disabled.").1 := by
        rw [h]
      rw [hs]
      exact ⟨hf.1, hp.1, hp.2.1⟩
    · rw [hpa] at h
      simp only [if_true] at h
      rcases hdt : try_create_tuner_drivetrain env with msg | pr
      · rw [hdt] at h
        exact absurd h (by simp)
      · obtain ⟨dt, evs1⟩ := pr
        rw [hdt] at h
        simp only [init_hardware, hpa, if_true, Except.ok.injEq] at h
        set s1 : DriveState :=
          { enabled := true, disable_reason := none, disable_reported := false,
            tuner_drivetrain := dt, autonomous_factory := fac,
            drive_motors := [], steer_motors := [] }
        injection h with h1 h2
        have hs : s = (init_hardware_loop env DriveConstants.MODULES s1).1 := h1.symm
        rcases init_hardware_loop_spec env DriveConstants.MODULES s1 with hl | hl
        · left
          rw [hs, hl]
          refine ⟨rfl, ?_, ?_⟩ <;> simp [DriveConstants.MODULES,
            DriveConstants.FRONT_LEFT, DriveConstants.FRONT_RIGHT,
            DriveConstants.BACK_LEFT, DriveConstants.BACK_RIGHT]
        · right
          rw [hs]
          exact hl

/-- Witness for C1 at the clean environment: construction succeeds with the
enabled, fully populated outcome. -/
theorem construction_invariant_witness :
    drive_init env_clean = Except.ok (clean_state, []) ∧
    ((clean_state.enabled = true ∧ clean_state.drive_motors = [1, 2, 3, 4] ∧
        clean_state.steer_motors = [11, 12, 13, 14]) ∨
      (clean_state.enabled = false ∧ clean_state.drive_motors = [] ∧
        clean_state.steer_motors = [])) :=
  ⟨rfl, construction_invariant env_clean clean_state [] rfl⟩

/-- The schedulability check always yields a schedulable command. -/
theorem auto_check_command_schedulable (t : DriveState) (command : Option ExtCmd) :
    ((auto_check_command t command).1).schedulable = true := by
  unfold auto_check_command
  cases command with
  | none => rfl
  | some c => by_cases hc : c.schedulable <;> simp [hc, Cmd.schedulable, auto_warn_fallback]

/-- The factory tier always yields a schedulable command. -/
theorem auto_factory_tier_schedulable (t : DriveState) :
    ((auto_factory_tier t).1).schedulable = true := by
  cases hf : t.autonomous_factory with
  | none => simp [auto_factory_tier, hf, auto_warn_fallback, Cmd.schedulable]
  | some factory =>
    have hred : auto_factory_tier t = auto_factory_call t factory := by
      unfold auto_factory_tier
      rw [hf]
    rw [hred]
    unfold auto_factory_call
    cases h0 : factory.call_zero with
    | ok command => exact auto_check_command_schedulable t command
    | typeError exc =>
      cases h1 : factory.call_one with
      | ok command => exact auto_check_command_schedulable t command
      | typeError exc1 => rfl
      | raises exc1 => rfl
    | raises exc => rfl

/-- C5: get_autonomous_command always returns a schedulable command object,
for every subsystem state and every behaviour of the delegate getter and the
factory; the embedding is a total function, so no exception escapes. -/
theorem get_autonomous_command_schedulable (s : DriveState) :
    ((get_autonomous_command s).1).schedulable = true := by
  unfold get_autonomous_command
  by_cases he : s.enabled
  · simp only [he, if_true]
    cases ht : s.tuner_drivetrain with
    | none => exact auto_factory_tier_schedulable s
    | some dt =>
      show ((auto_getter_tier s dt).1).schedulable = true
      unfold auto_getter_tier
      by_cases hg : dt.has_auto_getter
      · simp only [hg, if_true]
        cases hb : dt.auto_beh with
        | ok command =>
          cases command with
          | none => exact auto_factory_tier_schedulable s
          | some c =>
            by_cases hc : c.schedulable
            · simp [hc, Cmd.schedulable]
            · simp only [hc, Bool.false_eq_true, if_false]
              exact auto_factory_tier_schedulable s
        | typeError exc => rfl
        | raises exc => rfl
      · simp only [hg, Bool.false_eq_true, if_false]
        exact auto_factory_tier_schedulable s
  · simp only [he, Bool.false_eq_true, if_false]
    rfl

/-- C9: on the fallback path, when no delegate drive is invoked, the frame
flag has no effect: the call with the flag true is identical, in state change
and hardware writes, to the call with the flag false. -/
theorem field_oriented_irrelevant (env : Env) (s : DriveState) (x y r : ℚ)
    (h : s.tuner_drivetrain = none ∨
      ∃ dt, s.tuner_drivetrain = some dt ∧ dt.has_drive = false) :
    drive env s x y r true = drive env s x y r false := by
  unfold drive
  rcases h with h | ⟨dt, h, hd⟩
  · rw [h]
  · rw [h]
    simp [hd]

/-- Witness for C9 at a concrete state without an alternate drivetrain. -/
theorem field_oriented_irrelevant_witness :
    drive env_clean clean_state 1 2 3 true = drive env_clean clean_state 1 2 3 false :=
  field_oriented_irrelevant env_clean clean_state 1 2 3 (Or.inl rfl)

/-- C6 counterexample: a candidate module whose import fails with an error
other than ModuleNotFoundError makes each probe propagate the exception
instead of returning a resolved value or None. -/
theorem probe_import_fault_cex :
    try_create_tuner_drivetrain_loop
        (drivetrain_candidates.zip
          [DrivetrainProbe.importRaises "boom", DrivetrainProbe.moduleMissing,
           DrivetrainProbe.moduleMissing]) = Except.error "boom" ∧
    try_create_tuner_auto_factory_loop
        (factory_candidates.zip
          [FactoryProbe.importRaises "boom", FactoryProbe.moduleMissing,
           FactoryProbe.moduleMissing]) = Except.error "boom" :=
  ⟨rfl, rfl⟩

/-- C6 amended: when no candidate location fails at import time with anything
other than a module-not-found condition, each probe returns a resolved value
or None and never raises, for every behaviour of the probed locations: module
missing, symbol missing, symbol not callable, construction failure. -/
theorem probes_never_raise
    (l1 : List ((String × String) × DrivetrainProbe))
    (l2 : List ((String × String) × FactoryProbe))
    (h1 : ∀ p ∈ l1, ∀ msg, p.2 ≠ DrivetrainProbe.importRaises msg)
    (h2 : ∀ p ∈ l2, ∀ msg, p.2 ≠ FactoryProbe.importRaises msg) :
    (∃ r, try_create_tuner_drivetrain_loop l1 = .ok r) ∧
    (∃ r, try_create_tuner_auto_factory_loop l2 = .ok r) := by
  constructor
  · clear h2
    induction l1 with
    | nil => exact ⟨(none, []), rfl⟩
    | cons p rest ih =>
      obtain ⟨⟨mn, cn⟩, o⟩ := p
      have hrest : ∀ p ∈ rest, ∀ msg, p.2 ≠ DrivetrainProbe.importRaises msg :=
        fun q hq => h1 q (List.mem_cons_of_mem _ hq)
      rcases o with _ | msg | _ | dt | msg
      · simpa [try_create_tuner_drivetrain_loop] using ih hrest
      · exact absurd rfl (h1 ⟨⟨mn, cn⟩, .importRaises msg⟩ (List.mem_cons_self _ _) msg)
      · simpa [try_create_tuner_drivetrain_loop] using ih hrest
      · exact ⟨(some dt, []), rfl⟩
      · exact ⟨(none, [.warn ("Found " ++ mn ++ "." ++ cn ++
          " but failed to construct it: " ++ msg)]), rfl⟩
  · clear h1
    induction l2 with
    | nil => exact ⟨none, rfl⟩
    | cons p rest ih =>
      obtain ⟨⟨mn, fn⟩, o⟩ := p
      have hrest : ∀ p ∈ rest, ∀ msg, p.2 ≠ FactoryProbe.importRaises msg :=
        fun q hq => h2 q (List.mem_cons_of_mem _ hq)
      rcases o with _ | msg | _ | f
      · simpa [try_create_tuner_auto_factory_loop] using ih hrest
      · exact absurd rfl (h2 ⟨⟨mn, fn⟩, .importRaises msg⟩ (List.mem_cons_self _ _) msg)
      · simpa [try_create_tuner_auto_factory_loop] using ih hrest
      · exact ⟨some f, rfl⟩

/-- Witness for the amended C6 at the all-module-missing outcome lists. -/
theorem probes_never_raise_witness :
    (∃ r, try_create_tuner_drivetrain_loop
        [(("generated.command_swerve_drivetrain", "CommandSwerveDrivetrain"),
            DrivetrainProbe.moduleMissing),
         (("subsystems.command_swerve_drivetrain", "CommandSwerveDrivetrain"),
            DrivetrainProbe.moduleMissing),
         (("command_swerve_drivetrain", "CommandSwerveDrivetrain"),
            DrivetrainProbe.moduleMissing)] = .ok r) ∧
    (∃ r, try_create_tuner_auto_factory_loop
        [(("subsystems.tuner_autonomous", "build_autonomous_command"),
            FactoryProbe.moduleMissing),
         (("generated.tuner_autonomous", "build_autonomous_command"),
            FactoryProbe.moduleMissing),
         (("tuner_autonomous", "build_autonomous_command"),
            FactoryProbe.moduleMissing)] = .ok r) :=
  probes_never_raise _ _
    (by
      intro p hp msg
      cases hp with
      | head => intro h; exact nomatch h
      | tail _ hp =>
        cases hp with
        | head => intro h; exact nomatch h
        | tail _ hp =>
          cases hp with
          | head => intro h; exact nomatch h
          | tail _ hp => exact absurd hp (List.not_mem_nil _))
    (by
      intro p hp msg
      cases hp with
      | head => intro h; exact nomatch h
      | tail _ hp =>
        cases hp with
        | head => intro h; exact nomatch h
        | tail _ hp =>
          cases hp with
          | head => intro h; exact nomatch h
          | tail _ hp => exact absurd hp (List.not_mem_nil _))

/-- Full trace of a drive call taking the built-in path on an enabled
four-module subsystem whose hardware accepts every write. -/
theorem drive_trace_allok (env : Env) (s : DriveState)
    (xd yd rot : ℚ) (fo : Bool) (d1 d2 d3 d4 t1 t2 t3 t4 : Nat)
    (hen : s.enabled = true)
    (ht : s.tuner_drivetrain = none)
    (hdm : s.drive_motors = [d1, d2, d3, d4])
    (hsm : s.steer_motors = [t1, t2, t3, t4])
    (hpa : env.phoenix_available = true)
    (hok : ∀ m v, env.set_control m v = none) :
    drive env s xd yd rot fo =
      (s,
        [Event.write d1 (clamp (deadscale_translation xd + deadscale_translation yd +
            deadscale_rotation rot)),
         Event.write d2 (clamp (deadscale_translation xd - deadscale_translation yd -
            deadscale_rotation rot)),
         Event.write d3 (clamp (deadscale_translation xd - deadscale_translation yd +
            deadscale_rotation rot)),
         Event.write d4 (clamp (deadscale_translation xd + deadscale_translation yd -
            deadscale_rotation rot)),
         Event.write t1 (clamp (deadscale_rotation rot)),
         Event.write t2 (clamp (deadscale_rotation rot)),
         Event.write t3 (clamp (deadscale_rotation rot)),
         Event.write t4 (clamp (deadscale_rotation rot))]) := by
  have hff := first_fail_none env hok
  simp only [drive, hen, if_true, ht]
  simp only [drive_builtin, write_phase, hpa, if_true, hdm, hsm,
    deadscale_translation, deadscale_rotation]
  rw [List.zip_cons_cons, List.zip_cons_cons, List.zip_cons_cons,
    List.zip_cons_cons, List.zip_nil_left]
  rw [set_control_loop_ok env _ _ s (hff _)]
  simp only
  rw [set_control_loop_ok env _ _ s (hff _)]
  simp [List.map, hsm]

/-- C3: on the built-in path of an enabled subsystem with four drive and four
steer handles, with the hardware accepting every write: each axis below its
deadband threshold is zeroed, the surviving axes are scaled by their factors,
the four drive duty cycles are the clamped mix combinations written in module
order, the single clamped rotation value is written to all four steer handles,
and every written value lies between -1 and 1. -/
theorem drive_builtin_mix_spec (env : Env) (s : DriveState)
    (xd yd rot : ℚ) (fo : Bool) (d1 d2 d3 d4 t1 t2 t3 t4 : Nat)
    (hen : s.enabled = true)
    (ht : s.tuner_drivetrain = none)
    (hdm : s.drive_motors = [d1, d2, d3, d4])
    (hsm : s.steer_motors = [t1, t2, t3, t4])
    (hpa : env.phoenix_available = true)
    (hok : ∀ m v, env.set_control m v = none) :
    (∀ v dbd, |v| < dbd → apply_deadband v dbd = 0) ∧
    drive env s xd yd rot fo =
      (s,
        [Event.write d1 (clamp (deadscale_translation xd + deadscale_translation yd +
            deadscale_rotation rot)),
         Event.write d2 (clamp (deadscale_translation xd - deadscale_translation yd -
            deadscale_rotation rot)),
         Event.write d3 (clamp (deadscale_translation xd - deadscale_translation yd +
            deadscale_rotation rot)),
         Event.write d4 (clamp (deadscale_translation xd + deadscale_translation yd -
            deadscale_rotation rot)),
         Event.write t1 (clamp (deadscale_rotation rot)),
         Event.write t2 (clamp (deadscale_rotation rot)),
         Event.write t3 (clamp (deadscale_rotation rot)),
         Event.write t4 (clamp (deadscale_rotation rot))]) ∧
    (∀ m v, Event.write m v ∈ (drive env s xd yd rot fo).2 → -1 ≤ v ∧ v ≤ 1) := by
  have hdb : ∀ v dbd, |v| < dbd → apply_deadband v dbd = 0 := by
    intro v dbd h
    simp [apply_deadband, h]
  have key := drive_trace_allok env s xd yd rot fo d1 d2 d3 d4 t1 t2 t3 t4
    hen ht hdm hsm hpa hok
  refine ⟨hdb, key, ?_⟩
  rw [key]
  intro m v hv
  simp only [List.mem_cons, List.not_mem_nil, or_false, Event.write.injEq] at hv
  rcases hv with ⟨hm, rfl⟩ | ⟨hm, rfl⟩ | ⟨hm, rfl⟩ | ⟨hm, rfl⟩ |
    ⟨hm, rfl⟩ | ⟨hm, rfl⟩ | ⟨hm, rfl⟩ | ⟨hm, rfl⟩ <;> exact clamp_bounds _

/-- Witness for C3 at the clean state with inputs 1, 2, 3. -/
theorem drive_builtin_mix_spec_witness :
    (∀ v dbd, |v| < dbd → apply_deadband v dbd = 0) ∧
    drive env_clean clean_state 1 2 3 false =
      (clean_state,
        [Event.write 1 (clamp (deadscale_translation 1 + deadscale_translation 2 +
            deadscale_rotation 3)),
         Event.write 2 (clamp (deadscale_translation 1 - deadscale_translation 2 -
            deadscale_rotation 3)),
         Event.write 3 (clamp (deadscale_translation 1 - deadscale_translation 2 +
            deadscale_rotation 3)),
         Event.write 4 (clamp (deadscale_translation 1 + deadscale_translation 2 -
            deadscale_rotation 3)),
         Event.write 11 (clamp (deadscale_rotation 3)),
         Event.write 12 (clamp (deadscale_rotation 3)),
         Event.write 13 (clamp (deadscale_rotation 3)),
         Event.write 14 (clamp (deadscale_rotation 3))]) ∧
    (∀ m v, Event.write m v ∈ (drive env_clean clean_state 1 2 3 false).2 →
      -1 ≤ v ∧ v ≤ 1) :=
  drive_builtin_mix_spec env_clean clean_state 1 2 3 false 1 2 3 4 11 12 13 14
    rfl rfl rfl rfl rfl (fun _ _ => rfl)

/-- When the hardware accepts every write, the built-in path leaves the state
unchanged. -/
theorem drive_builtin_ok_state (env : Env) (s : DriveState) (x y r : ℚ)
    (hpa : env.phoenix_available = true)
    (hok : ∀ m v, env.set_control m v = none) :
    (drive_builtin env s x y r).1 = s := by
  simp only [drive_builtin, write_phase, hpa, if_true]
  rw [set_control_loop_ok env _ _ s (first_fail_none env hok _)]
  simp only
  rw [set_control_loop_ok env _ _ s (first_fail_none env hok _)]
  simp

/-- Disabling emits no hardware write. -/
theorem disable_no_writes (s : DriveState) (r : String) :
    ∀ e ∈ (disable s r).2, e.isWrite = false := by
  by_cases hp : s.disable_reported <;> simp [disable, hp, Event.isWrite]

/-- C7: on an enabled subsystem whose alternate drivetrain exposes a callable
drive, a TypeError from the delegate falls through to the built-in mixing path
(and in particular the subsystem stays enabled when the built-in path meets no
hardware fault); any other exception disables the subsystem with that fault as
the reason, performs no hardware write, and skips the built-in path. -/
theorem delegate_drive_fault_spec (env : Env) (s : DriveState)
    (dt : TunerDrivetrain) (x y r : ℚ) (fo : Bool)
    (hen : s.enabled = true)
    (ht : s.tuner_drivetrain = some dt)
    (hd : dt.has_drive = true) :
    (∀ msg, dt.drive_beh x y r fo = .typeError msg →
      drive env s x y r fo = drive_builtin env s x y r ∧
      (env.phoenix_available = true → (∀ m v, env.set_control m v = none) →
        (drive env s x y r fo).1.enabled = true)) ∧
    (∀ msg, dt.drive_beh x y r fo = .raises msg →
      drive env s x y r fo = disable s ("Tuner drivetrain drive call failed: " ++ msg) ∧
      (∀ e ∈ (drive env s x y r fo).2, e.isWrite = false) ∧
      (drive env s x y r fo).1.enabled = false) := by
  constructor
  · intro msg hbeh
    have heq : drive env s x y r fo = drive_builtin env s x y r := by
      simp only [drive, hen, if_true, ht, hd, hbeh]
    refine ⟨heq, ?_⟩
    intro hpa hok
    rw [heq, drive_builtin_ok_state env s x y r hpa hok]
    exact hen
  · intro msg hbeh
    have heq : drive env s x y r fo =
        disable s ("Tuner drivetrain drive call failed: " ++ msg) := by
      simp only [drive, hen, if_true, ht, hd, hbeh]
    refine ⟨heq, ?_, ?_⟩
    · rw [heq]
      exact disable_no_writes s _
    · rw [heq]
      exact (disable_fields s _).1

/-- Witness for C7: the TypeError delegate falls through to the built-in path,
the raising delegate disables with the fault as reason. -/
theorem delegate_drive_fault_spec_witness :
    drive env_clean (state_with_dt dt_typeerror) 1 2 3 false =
      drive_builtin env_clean (state_with_dt dt_typeerror) 1 2 3 ∧
    drive env_clean (state_with_dt dt_raises) 1 2 3 false =
      disable (state_with_dt dt_raises)
        ("Tuner drivetrain drive call failed: " ++ "kaput") :=
  ⟨((delegate_drive_fault_spec env_clean (state_with_dt dt_typeerror) dt_typeerror
      1 2 3 false rfl rfl rfl).1 "sig" rfl).1,
   ((delegate_drive_fault_spec env_clean (state_with_dt dt_raises) dt_raises
      1 2 3 false rfl rfl rfl).2 "kaput" rfl).1⟩

/-- preserves is reflexive. -/
theorem preserves_refl (s : DriveState) : preserves s s :=
  ⟨rfl, rfl, rfl, rfl, fun h => h⟩

/-- preserves is transitive. -/
theorem preserves_trans {s t u : DriveState} (h1 : preserves s t)
    (h2 : preserves t u) : preserves s u :=
  ⟨h2.1.trans h1.1, h2.2.1.trans h1.2.1, h2.2.2.1.trans h1.2.2.1,
   h2.2.2.2.1.trans h1.2.2.2.1, fun h => h1.2.2.2.2 (h2.2.2.2.2 h)⟩

/-- Disabling preserves the untouched fields and the monotone enabled flag. -/
theorem disable_preserves_pred (s : DriveState) (r : String) :
    preserves s (disable s r).1 := by
  have hp := disable_preserves s r
  have hf := disable_fields s r
  refine ⟨hp.1, hp.2.1, hp.2.2.1, hp.2.2.2, ?_⟩
  intro h
  rw [hf.1] at h
  exact absurd h (by simp)

/-- The write loop preserves the untouched fields and the monotone flag. -/
theorem set_control_loop_preserves_pred (env : Env) (msg : String)
    (l : List (Nat × ℚ)) (s : DriveState) :
    preserves s (set_control_loop env msg l s).1 := by
  have h := set_control_loop_preserves env msg l s
  exact ⟨h.1, h.2.1, h.2.2.1, h.2.2.2.1, h.2.2.2.2⟩

/-- The shared write phase preserves the untouched fields and flag. -/
theorem write_phase_preserves_pred (env : Env) (msg1 msg2 : String)
    (dp : List (Nat × ℚ)) (sv : ℚ) (s : DriveState) :
    preserves s (write_phase env msg1 msg2 dp sv s).1 := by
  unfold write_phase
  cases hb : (set_control_loop env msg1 dp s).2.2 with
  | false =>
    simp only [hb, Bool.false_eq_true, if_false]
    exact set_control_loop_preserves_pred env msg1 dp s
  | true =>
    simp only [hb, if_true]
    exact preserves_trans (set_control_loop_preserves_pred env msg1 dp s)
      (set_control_loop_preserves_pred env msg2 _ _)

/-- The built-in drive path preserves the untouched fields and flag. -/
theorem drive_builtin_preserves_pred (env : Env) (s : DriveState) (x y r : ℚ) :
    preserves s (drive_builtin env s x y r).1 := by
  unfold drive_builtin
  by_cases hpa : env.phoenix_available
  · simp only [hpa, if_true]
    exact write_phase_preserves_pred env _ _ _ _ s
  · simp only [hpa, Bool.false_eq_true, if_false]
    exact disable_preserves_pred s _

/-- drive preserves the untouched fields and flag. -/
theorem drive_preserves_pred (env : Env) (s : DriveState) (x y r : ℚ)
    (fo : Bool) : preserves s (drive env s x y r fo).1 := by
  unfold drive
  by_cases he : s.enabled
  · simp only [he, if_true]
    cases ht : s.tuner_drivetrain with
    | none => exact drive_builtin_preserves_pred env s x y r
    | some dt =>
      by_cases hd : dt.has_drive
      · simp only [hd, if_true]
        cases hb : dt.drive_beh x y r fo with
        | ok u => exact preserves_refl s
        | typeError exc => exact drive_builtin_preserves_pred env s x y r
        | raises exc => exact disable_preserves_pred s _
      · simp only [hd, Bool.false_eq_true, if_false]
        exact drive_builtin_preserves_pred env s x y r
  · simp only [he, Bool.false_eq_true, if_false]
    exact preserves_refl s

/-- stop preserves the untouched fields and flag. -/
theorem stop_preserves_pred (env : Env) (s : DriveState) :
    preserves s (stop env s).1 := by
  unfold stop
  by_cases hpa : env.phoenix_available
  · simp only [hpa, if_true]
    exact write_phase_preserves_pred env _ _ _ _ s
  · simp only [hpa, Bool.false_eq_true, if_false]
    exact preserves_refl s

/-- The factory tier preserves the untouched fields and flag. -/
theorem auto_factory_tier_preserves_pred (s : DriveState) :
    preserves s (auto_factory_tier s).2.1 := by
  cases hf : s.autonomous_factory with
  | none => simp only [auto_factory_tier, hf]; exact preserves_refl s
  | some factory =>
    have hred : auto_factory_tier s = auto_factory_call s factory := by
      unfold auto_factory_tier
      rw [hf]
    rw [hred]
    unfold auto_factory_call
    cases h0 : factory.call_zero with
    | ok command =>
      unfold auto_check_command
      cases command with
      | none => exact preserves_refl s
      | some c =>
        by_cases hc : c.schedulable
        · simp only [hc, if_true]
          exact preserves_refl s
        · simp only [hc, Bool.false_eq_true, if_false]
          exact preserves_refl s
    | typeError exc =>
      cases h1 : factory.call_one with
      | ok command =>
        unfold auto_check_command
        cases command with
        | none => exact preserves_refl s
        | some c =>
          by_cases hc : c.schedulable
          · simp only [hc, if_true]
            exact preserves_refl s
          · simp only [hc, Bool.false_eq_true, if_false]
            exact preserves_refl s
      | typeError exc1 => exact disable_preserves_pred s _
      | raises exc1 => exact disable_preserves_pred s _
    | raises exc => exact disable_preserves_pred s _

/-- get_autonomous_command preserves the untouched fields and flag. -/
theorem get_auto_preserves_pred (s : DriveState) :
    preserves s (get_autonomous_command s).2.1 := by
  unfold get_autonomous_command
  by_cases he : s.enabled
  · simp only [he, if_true]
    cases ht : s.tuner_drivetrain with
    | none => exact auto_factory_tier_preserves_pred s
    | some dt =>
      show preserves s (auto_getter_tier s dt).2.1
      unfold auto_getter_tier
      by_cases hg : dt.has_auto_getter
      · simp only [hg, if_true]
        cases hb : dt.auto_beh with
        | ok command =>
          cases command with
          | none => exact auto_factory_tier_preserves_pred s
          | some c =>
            by_cases hc : c.schedulable
            · simp only [hc, if_true]
              exact preserves_refl s
            · simp only [hc, Bool.false_eq_true, if_false]
              exact auto_factory_tier_preserves_pred s
        | typeError exc => exact disable_preserves_pred s _
        | raises exc => exact disable_preserves_pred s _
      · simp only [hg, Bool.false_eq_true, if_false]
        exact auto_factory_tier_preserves_pred s
  · simp only [he, Bool.false_eq_true, if_false]
    exact preserves_refl s

/-- Every public operation preserves the motor sequences, the capabilities,
and the monotone enabled flag. -/
theorem run_op_preserves_pred (env : Env) (s : DriveState) (op : OpCall) :
    preserves s (run_op env s op).1 := by
  cases op with
  | driveOp x y r fo => exact drive_preserves_pred env s x y r fo
  | stopOp => exact stop_preserves_pred env s
  | autoOp => exact get_auto_preserves_pred s

/-- In an environment accepting every zero write, the zero list never fails. -/
theorem first_fail_zero (env : Env) (h : ∀ m, env.set_control m 0 = none)
    (ms : List Nat) :
    first_fail env (ms.map (fun m => (m, (0 : ℚ)))) = none := by
  induction ms with
  | nil => rfl
  | cons m rest ih =>
    rw [List.map_cons, first_fail, h]
    exact ih

/-- C8: disabling at runtime does not clear the motor sequences: every public
operation leaves drive_motors and steer_motors untouched, so after a write
fault during drive or stop the subsystem is disabled but both sequences are
intact; stop still attempts to write zero to all eight handles whenever the
library is present and the zero writes are accepted, regardless of the enabled
flag, and stop is a no-op exactly when the library was never loadable. -/
theorem runtime_disable_keeps_motors (env : Env) (s : DriveState) (op : OpCall) :
    ((run_op env s op).1.drive_motors = s.drive_motors ∧
     (run_op env s op).1.steer_motors = s.steer_motors) ∧
    (∀ d1 d2 d3 d4 t1 t2 t3 t4 : Nat,
      s.drive_motors = [d1, d2, d3, d4] → s.steer_motors = [t1, t2, t3, t4] →
      env.phoenix_available = true → (∀ m, env.set_control m 0 = none) →
      (stop env s).2 = [Event.write d1 0, Event.write d2 0, Event.write d3 0,
        Event.write d4 0, Event.write t1 0, Event.write t2 0, Event.write t3 0,
        Event.write t4 0]) ∧
    (env.phoenix_available = false → stop env s = (s, [])) := by
  refine ⟨⟨(run_op_preserves_pred env s op).1, (run_op_preserves_pred env s op).2.1⟩,
    ?_, ?_⟩
  · intro d1 d2 d3 d4 t1 t2 t3 t4 hdm hsm hpa hok
    simp only [stop, write_phase, hpa, if_true, hdm, hsm]
    rw [set_control_loop_ok env _ _ s (first_fail_zero env hok _)]
    simp only
    rw [set_control_loop_ok env _ _ s (first_fail_zero env hok _)]
    simp [List.map, hsm]
  · intro hpa
    simp [stop, hpa]

/-- Witness for C8: under a faulting drive write the motors stay populated,
and under the clean environment stop writes the eight zeros. -/
theorem runtime_disable_keeps_motors_witness :
    ((run_op env_fault clean_state (.driveOp 1 0 0 false)).1.drive_motors =
        clean_state.drive_motors ∧
     (run_op env_fault clean_state (.driveOp 1 0 0 false)).1.steer_motors =
        clean_state.steer_motors) ∧
    (stop env_clean clean_state).2 = [Event.write 1 0, Event.write 2 0,
      Event.write 3 0, Event.write 4 0, Event.write 11 0, Event.write 12 0,
      Event.write 13 0, Event.write 14 0] ∧
    stop env_nophx clean_state = (clean_state, []) :=
  ⟨(runtime_disable_keeps_motors env_fault clean_state (.driveOp 1 0 0 false)).1,
   (runtime_disable_keeps_motors env_clean clean_state .stopOp).2.1
     1 2 3 4 11 12 13 14 rfl rfl rfl (fun _ => rfl),
   (runtime_disable_keeps_motors env_nophx clean_state .stopOp).2.2 rfl⟩

/-- C4 counterexample: in the all-clean scenario the call drive(0.5, 0, 0,
false) writes the scaled duty cycle 1/4 to the four drive handles, not
clamp(0.5) = 1/2 as the claim states. -/
theorem drive_half_input_cex :
    drive_init env_clean = Except.ok (clean_state, []) ∧
    (drive env_clean clean_state (1/2) 0 0 false).2 =
      [Event.write 1 (1/4), Event.write 2 (1/4), Event.write 3 (1/4),
       Event.write 4 (1/4), Event.write 11 0, Event.write 12 0,
       Event.write 13 0, Event.write 14 0] ∧
    clamp (1/2) = 1/2 ∧ (1/4 : ℚ) ≠ 1/2 := by
  have key := drive_trace_allok env_clean clean_state (1/2) 0 0 false
    1 2 3 4 11 12 13 14 rfl rfl rfl rfl rfl (fun _ _ => rfl)
  refine ⟨rfl, ?_, ?_, by norm_num⟩
  · rw [key]
    norm_num [deadscale_translation, deadscale_rotation, apply_deadband, clamp,
      abs_of_nonneg, DriveConstants.TRANSLATION_DEADBAND,
      DriveConstants.ROTATION_DEADBAND, DriveConstants.MAX_TRANSLATION_OUTPUT,
      DriveConstants.MAX_ROTATION_OUTPUT]
  · norm_num [clamp]

/-- C4 amended: all hardware constructs, no alternate drivetrain, no
autonomous factory: drive(0.5, 0, 0, false) writes the duty cycle
clamp(0.5 * MAX_TRANSLATION_OUTPUT) = 1/4 to all four drive handles and 0 to
all four steer handles leaving the state unchanged, and get_autonomous_command
warns once and returns the stop command. -/
theorem clean_scenario_spec :
    drive_init env_clean = Except.ok (clean_state, []) ∧
    clean_state.tuner_drivetrain = none ∧
    clean_state.autonomous_factory = none ∧
    drive env_clean clean_state (1/2) 0 0 false =
      (clean_state,
        [Event.write 1 (clamp (1/2 * DriveConstants.MAX_TRANSLATION_OUTPUT)),
         Event.write 2 (clamp (1/2 * DriveConstants.MAX_TRANSLATION_OUTPUT)),
         Event.write 3 (clamp (1/2 * DriveConstants.MAX_TRANSLATION_OUTPUT)),
         Event.write 4 (clamp (1/2 * DriveConstants.MAX_TRANSLATION_OUTPUT)),
         Event.write 11 0, Event.write 12 0, Event.write 13 0,
         Event.write 14 0]) ∧
    get_autonomous_command clean_state =
      (Cmd.instantStop, clean_state,
        [Event.warn
          "No Phoenix 6 Tuner autonomous command source found; using stop command."]) := by
  refine ⟨rfl, rfl, rfl, ?_, rfl⟩
  rw [drive_trace_allok env_clean clean_state (1/2) 0 0 false
    1 2 3 4 11 12 13 14 rfl rfl rfl rfl rfl (fun _ _ => rfl)]
  norm_num [deadscale_translation, deadscale_rotation, apply_deadband, clamp,
    abs_of_nonneg, DriveConstants.TRANSLATION_DEADBAND,
    DriveConstants.ROTATION_DEADBAND, DriveConstants.MAX_TRANSLATION_OUTPUT,
    DriveConstants.MAX_ROTATION_OUTPUT]

/-- C2 counterexample: a drive write fault disables the subsystem and records
its reason; a later write fault inside stop overwrites the recorded reason, so
the disable reason is not write-once. -/
theorem disable_reason_overwritten_cex :
    drive_init env_fault = Except.ok (clean_state, []) ∧
    (drive env_fault clean_state 1 0 0 false).1.disable_reason =
      some "Swerve drive output failed: boom" ∧
    (stop env_fault (drive env_fault clean_state 1 0 0 false).1).1.disable_reason =
      some "Swerve stop failed on drive motor: boom" ∧
    ("Swerve drive output failed: boom" : String) ≠
      "Swerve stop failed on drive motor: boom" := by
  exact ⟨rfl, rfl, rfl, by decide⟩

/-- From a state whose warning was already reported, the write loop emits only
hardware writes, keeps the reported flag, and never re-enables. -/
theorem set_control_loop_silent (env : Env) (msg : String) (l : List (Nat × ℚ))
    (s : DriveState) (hp : s.disable_reported = true) :
    (∀ e ∈ (set_control_loop env msg l s).2.1, e.isWrite = true) ∧
    (set_control_loop env msg l s).1.disable_reported = true := by
  rw [set_control_loop_spec]
  rcases hf : first_fail env l with _ | exc
  · simp only
    refine ⟨?_, hp⟩
    intro e he
    simp only [List.mem_map] at he
    obtain ⟨p, _, rfl⟩ := he
    rfl
  · simp only
    have hd := disable_reported_silent s (msg ++ exc) hp
    refine ⟨?_, hd.2⟩
    intro e he
    rw [hd.1, List.append_nil] at he
    simp only [List.mem_map] at he
    obtain ⟨p, _, rfl⟩ := he
    rfl

/-- From a disabled, already-reported state, the shared write phase keeps the
subsystem disabled and reported and emits only hardware writes. -/
theorem write_phase_silent (env : Env) (msg1 msg2 : String)
    (dp : List (Nat × ℚ)) (sv : ℚ) (s : DriveState)
    (he : s.enabled = false) (hp : s.disable_reported = true) :
    (write_phase env msg1 msg2 dp sv s).1.enabled = false ∧
    (write_phase env msg1 msg2 dp sv s).1.disable_reported = true ∧
    (∀ e ∈ (write_phase env msg1 msg2 dp sv s).2, e.isWrite = true) := by
  have key1 := set_control_loop_silent env msg1 dp s hp
  have keyp1 := set_control_loop_preserves_pred env msg1 dp s
  have hen1 : (set_control_loop env msg1 dp s).1.enabled = false := by
    cases hv : (set_control_loop env msg1 dp s).1.enabled with
    | false => rfl
    | true => rw [keyp1.2.2.2.2 hv] at he; exact absurd he (by simp)
  unfold write_phase
  cases hb : (set_control_loop env msg1 dp s).2.2 with
  | false =>
    simp only [hb, Bool.false_eq_true, if_false]
    exact ⟨hen1, key1.2, key1.1⟩
  | true =>
    simp only [hb, if_true]
    have key2 := set_control_loop_silent env msg2
      ((set_control_loop env msg1 dp s).1.steer_motors.map (fun m => (m, sv)))
      (set_control_loop env msg1 dp s).1 key1.2
    have keyp2 := set_control_loop_preserves_pred env msg2
      ((set_control_loop env msg1 dp s).1.steer_motors.map (fun m => (m, sv)))
      (set_control_loop env msg1 dp s).1
    have hen2 : (set_control_loop env msg2
        ((set_control_loop env msg1 dp s).1.steer_motors.map (fun m => (m, sv)))
        (set_control_loop env msg1 dp s).1).1.enabled = false := by
      cases hv : (set_control_loop env msg2
          ((set_control_loop env msg1 dp s).1.steer_motors.map (fun m => (m, sv)))
          (set_control_loop env msg1 dp s).1).1.enabled with
      | false => rfl
      | true => rw [keyp2.2.2.2.2 hv] at hen1; exact absurd hen1 (by simp)
    refine ⟨hen2, key2.2, ?_⟩
    intro e he2
    rcases List.mem_append.mp he2 with h | h
    · exact key1.1 e h
    · exact key2.1 e h

/-- From a disabled, already-reported state, every public operation keeps the
subsystem disabled and reported and emits only hardware writes. -/
theorem run_op_disabled_silent (env : Env) (s : DriveState) (op : OpCall)
    (he : s.enabled = false) (hp : s.disable_reported = true) :
    (run_op env s op).1.enabled = false ∧
    (run_op env s op).1.disable_reported = true ∧
    (∀ e ∈ (run_op env s op).2, e.isWrite = true) := by
  cases op with
  | driveOp x y r fo =>
    have : drive env s x y r fo = (s, []) := by
      simp [drive, he]
    simp only [run_op, this]
    exact ⟨he, hp, by simp⟩
  | autoOp =>
    have : get_autonomous_command s = (.instantNone, s, []) := by
      simp [get_autonomous_command, he]
    simp only [run_op, this]
    exact ⟨he, hp, by simp⟩
  | stopOp =>
    simp only [run_op, stop]
    by_cases hpa : env.phoenix_available
    · simp only [hpa, if_true]
      exact write_phase_silent env _ _ _ _ s he hp
    · simp only [hpa, Bool.false_eq_true, if_false]
      exact ⟨he, hp, by simp⟩

/-- C2 amended: for every sequence of public operations, the enabled flag is
monotone (once false it never becomes true again), and the disable warning is
reported at most once: from a disabled, already-reported state no operation
reports again (every later event is a hardware write).  The disable reason
field, however, is not write-once: a later fault inside stop overwrites it, as
the counterexample shows. -/
theorem enabled_monotone_warn_once (env : Env) (s : DriveState)
    (ops : List OpCall) :
    ((run_ops env s ops).1.enabled = true → s.enabled = true) ∧
    (s.enabled = false → s.disable_reported = true →
      ((run_ops env s ops).1.enabled = false ∧
       (run_ops env s ops).1.disable_reported = true ∧
       ∀ e ∈ (run_ops env s ops).2, e.isWrite = true)) := by
  induction ops generalizing s with
  | nil =>
    refine ⟨fun h => h, fun he hp => ⟨he, hp, ?_⟩⟩
    intro e he2
    exact absurd he2 (List.not_mem_nil _)
  | cons op rest ih =>
    constructor
    · intro h
      simp only [run_ops] at h
      exact (run_op_preserves_pred env s op).2.2.2.2 ((ih _).1 h)
    · intro he hp
      have h1 := run_op_disabled_silent env s op he hp
      have h2 := (ih (run_op env s op).1).2 h1.1 h1.2.1
      simp only [run_ops]
      refine ⟨h2.1, h2.2.1, ?_⟩
      intro e he2
      rcases List.mem_append.mp he2 with h | h
      · exact h1.2.2 e h
      · exact h2.2.2 e h

/-- Witness for the amended C2 from a concrete disabled and reported state. -/
theorem enabled_monotone_warn_once_witness :
    (run_ops env_fault disabled_state
        [.stopOp, .driveOp 1 0 0 false, .autoOp]).1.enabled = false ∧
    (run_ops env_fault disabled_state
        [.stopOp, .driveOp 1 0 0 false, .autoOp]).1.disable_reported = true ∧
    ∀ e ∈ (run_ops env_fault disabled_state
        [.stopOp, .driveOp 1 0 0 false, .autoOp]).2, e.isWrite = true :=
  (enabled_monotone_warn_once env_fault disabled_state
    [.stopOp, .driveOp 1 0 0 false, .autoOp]).2 rfl rfl

/-- Membership in a takeWhile prefix implies membership in the list. -/
theorem mem_takeWhile_mem {α : Type} (q : α → Bool) :
    ∀ (l : List α) (x : α), x ∈ l.takeWhile q → x ∈ l := by
  intro l
  induction l with
  | nil =>
    intro x hx
    simp [List.takeWhile] at hx
  | cons a rest ih =>
    intro x hx
    rw [List.takeWhile_cons] at hx
    by_cases hq : q a
    · rw [if_pos hq] at hx
      rcases List.mem_cons.mp hx with rfl | hx
      · exact List.mem_cons_self _ _
      · exact List.mem_cons_of_mem _ (ih x hx)
    · rw [if_neg hq] at hx
      exact absurd hx (List.not_mem_nil _)

/-- Taking at most the length of the first part of an append stays in it. -/
theorem take_append_le {α : Type} :
    ∀ (l1 l2 : List α) (k : Nat), k ≤ l1.length → (l1 ++ l2).take k = l1.take k := by
  intro l1
  induction l1 with
  | nil =>
    intro l2 k hk
    rw [Nat.le_zero.mp hk]
    simp
  | cons a rest ih =>
    intro l2 k hk
    cases k with
    | zero => simp
    | succ n =>
      simp only [List.cons_append, List.take_succ_cons]
      rw [ih l2 n (Nat.succ_le_succ_iff.mp hk)]

/-- Taking the first part plus k of an append keeps the first part whole. -/
theorem take_append_add {α : Type} :
    ∀ (l1 l2 : List α) (k : Nat),
      (l1 ++ l2).take (l1.length + k) = l1 ++ l2.take k := by
  intro l1
  induction l1 with
  | nil =>
    intro l2 k
    simp
  | cons a rest ih =>
    intro l2 k
    simp only [List.cons_append, List.length_cons]
    rw [show rest.length + 1 + k = (rest.length + k) + 1 by omega]
    rw [List.take_succ_cons, ih]

/-- A mapped write list filters to itself. -/
theorem write_events_map_wr (l : List (Nat × ℚ)) :
    write_events (l.map (fun p => Event.write p.1 p.2)) =
      l.map (fun p => Event.write p.1 p.2) := by
  unfold write_events
  rw [List.filter_eq_self]
  intro e he
  simp only [List.mem_map] at he
  obtain ⟨p, _, rfl⟩ := he
  rfl

/-- write_events distributes over append. -/
theorem write_events_append (l1 l2 : List Event) :
    write_events (l1 ++ l2) = write_events l1 ++ write_events l2 := by
  simp [write_events]

/-- Disabling contributes no hardware write to the trace. -/
theorem disable_write_events (s : DriveState) (r : String) :
    write_events (disable s r).2 = [] := by
  by_cases hp : s.disable_reported <;>
    simp [disable, hp, write_events, Event.isWrite]

/-- The takeWhile prefix of a zero-pair list is a take of the motor list. -/
theorem takeWhile_map_zero (env : Env) :
    ∀ ms : List Nat, ∃ k, k ≤ ms.length ∧
      ((ms.map (fun m => (m, (0 : ℚ)))).takeWhile
        (fun p => (env.set_control p.1 p.2).isNone)) =
      (ms.take k).map (fun m => (m, (0 : ℚ))) := by
  intro ms
  induction ms with
  | nil => exact ⟨0, Nat.le_refl 0, rfl⟩
  | cons m rest ih =>
    rw [List.map_cons, List.takeWhile_cons]
    by_cases hc : (env.set_control m 0).isNone
    · rw [if_pos hc]
      obtain ⟨k, hk, heq⟩ := ih
      refine ⟨k + 1, Nat.succ_le_succ hk, ?_⟩
      rw [List.take_succ_cons, List.map_cons, heq]
    · rw [if_neg hc]
      exact ⟨0, Nat.zero_le _, by simp⟩

/-- stop with the library unavailable is a pure no-op. -/
theorem stop_spec_nophx (env : Env) (s : DriveState)
    (hpa : env.phoenix_available = false) : stop env s = (s, []) := by
  simp [stop, hpa]

/-- stop when a drive-motor zero write fails: disabled with the drive-motor
message, the successful prefix written. -/
theorem stop_spec_fail1 (env : Env) (s : DriveState) (exc : String)
    (hpa : env.phoenix_available = true)
    (h1 : first_fail env (s.drive_motors.map (fun m => (m, (0 : ℚ)))) = some exc) :
    stop env s =
      ((disable s ("Swerve stop failed on drive motor: " ++ exc)).1,
       ((s.drive_motors.map (fun m => (m, (0 : ℚ)))).takeWhile
          (fun p => (env.set_control p.1 p.2).isNone)).map
            (fun p => Event.write p.1 p.2) ++
        (disable s ("Swerve stop failed on drive motor: " ++ exc)).2) := by
  simp only [stop, hpa, if_true, write_phase]
  rw [set_control_loop_spec env _ _ s, h1]
  simp

/-- stop when the drive writes succeed but a steer-motor zero write fails. -/
theorem stop_spec_fail2 (env : Env) (s : DriveState) (exc : String)
    (hpa : env.phoenix_available = true)
    (h1 : first_fail env (s.drive_motors.map (fun m => (m, (0 : ℚ)))) = none)
    (h2 : first_fail env (s.steer_motors.map (fun m => (m, (0 : ℚ)))) = some exc) :
    stop env s =
      ((disable s ("Swerve stop failed on steer motor: " ++ exc)).1,
       (s.drive_motors.map (fun m => (m, (0 : ℚ)))).map
          (fun p => Event.write p.1 p.2) ++
        (((s.steer_motors.map (fun m => (m, (0 : ℚ)))).takeWhile
            (fun p => (env.set_control p.1 p.2).isNone)).map
              (fun p => Event.write p.1 p.2) ++
          (disable s ("Swerve stop failed on steer motor: " ++ exc)).2)) := by
  simp only [stop, hpa, if_true, write_phase]
  rw [set_control_loop_ok env _ _ s h1]
  simp only
  rw [set_control_loop_spec env _ _ s, h2]
  simp

/-- stop when every zero write succeeds: state unchanged, zeros written to
every drive handle then every steer handle in order. -/
theorem stop_spec_ok (env : Env) (s : DriveState)
    (hpa : env.phoenix_available = true)
    (h1 : first_fail env (s.drive_motors.map (fun m => (m, (0 : ℚ)))) = none)
    (h2 : first_fail env (s.steer_motors.map (fun m => (m, (0 : ℚ)))) = none) :
    stop env s =
      (s,
       (s.drive_motors.map (fun m => (m, (0 : ℚ)))).map
          (fun p => Event.write p.1 p.2) ++
        (s.steer_motors.map (fun m => (m, (0 : ℚ)))).map
          (fun p => Event.write p.1 p.2)) := by
  simp only [stop, hpa, if_true, write_phase]
  rw [set_control_loop_ok env _ _ s h1]
  simp only
  rw [set_control_loop_ok env _ _ s h2]
  simp

/-- C10: stop is idempotent: a second stop from the state the first left
behind reaches the same state and performs the same hardware writes; every
value stop writes is zero, and the writes are a take-prefix of the zero writes
to every drive handle then every steer handle in module order; the only state
change is the fault-disable triggered by the first failing write. -/
theorem stop_idempotent (env : Env) (s : DriveState) :
    (stop env (stop env s).1).1 = (stop env s).1 ∧
    write_events (stop env (stop env s).1).2 = write_events (stop env s).2 ∧
    (∀ m v, Event.write m v ∈ (stop env s).2 → v = 0) ∧
    (∃ k, write_events (stop env s).2 =
      ((s.drive_motors ++ s.steer_motors).take k).map
        (fun m => Event.write m 0)) := by
  cases hpa : env.phoenix_available with
  | false =>
    have h := stop_spec_nophx env s hpa
    refine ⟨by simp [h], by simp [h], by simp [h], ⟨0, by simp [h, write_events]⟩⟩
  | true =>
    rcases h1 : first_fail env (s.drive_motors.map (fun m => (m, (0 : ℚ)))) with _ | exc
    · rcases h2 : first_fail env (s.steer_motors.map (fun m => (m, (0 : ℚ)))) with _ | exc
      · -- every zero write succeeds
        have hs1 := stop_spec_ok env s hpa h1 h2
        have hstate : (stop env s).1 = s := by rw [hs1]
        refine ⟨?_, ?_, ?_, ?_⟩
        · rw [hstate, hstate]
        · rw [hstate]
        · intro m v hv
          rw [hs1] at hv
          simp only [List.map_map, List.mem_append, List.mem_map,
            Function.comp] at hv
          rcases hv with ⟨x, _, hx⟩ | ⟨x, _, hx⟩ <;>
            (injection hx with hm hv2; exact hv2.symm)
        · refine ⟨(s.drive_motors ++ s.steer_motors).length, ?_⟩
          rw [hs1]
          simp only [write_events_append, write_events_map_wr]
          rw [List.take_length]
          simp only [List.map_map, List.map_append]
          rfl
      · -- a steer zero write fails
        have hs1 := stop_spec_fail2 env s exc hpa h1 h2
        have hstate : (stop env s).1 =
            (disable s ("Swerve stop failed on steer motor: " ++ exc)).1 := by
          rw [hs1]
        have hf := disable_fields s ("Swerve stop failed on steer motor: " ++ exc)
        have hp := disable_preserves s ("Swerve stop failed on steer motor: " ++ exc)
        have h1b : first_fail env
            ((stop env s).1.drive_motors.map (fun m => (m, (0 : ℚ)))) = none := by
          rw [hstate, hp.1]
          exact h1
        have h2b : first_fail env
            ((stop env s).1.steer_motors.map (fun m => (m, (0 : ℚ)))) = some exc := by
          rw [hstate, hp.2.1]
          exact h2
        have hs2 := stop_spec_fail2 env (stop env s).1 exc hpa h1b h2b
        have hidem : disable (stop env s).1
            ("Swerve stop failed on steer motor: " ++ exc) = ((stop env s).1, []) := by
          apply disable_idem
          · rw [hstate]; exact hf.1
          · rw [hstate]; exact hf.2.1
          · rw [hstate]; exact hf.2.2
        refine ⟨?_, ?_, ?_, ?_⟩
        · rw [hs2, hidem]
        · have hRHS : write_events (stop env s).2 =
              (s.drive_motors.map (fun m => (m, (0 : ℚ)))).map
                (fun p => Event.write p.1 p.2) ++
              ((s.steer_motors.map (fun m => (m, (0 : ℚ)))).takeWhile
                (fun p => (env.set_control p.1 p.2).isNone)).map
                  (fun p => Event.write p.1 p.2) := by
            rw [hs1]
            simp only [write_events_append, write_events_map_wr,
              disable_write_events, List.append_nil]
          have hLHS : write_events (stop env (stop env s).1).2 =
              (s.drive_motors.map (fun m => (m, (0 : ℚ)))).map
                (fun p => Event.write p.1 p.2) ++
              ((s.steer_motors.map (fun m => (m, (0 : ℚ)))).takeWhile
                (fun p => (env.set_control p.1 p.2).isNone)).map
                  (fun p => Event.write p.1 p.2) := by
            rw [hs2, hidem]
            simp only [hstate, hp.1, hp.2.1, write_events_append,
              write_events_map_wr, List.append_nil]
          rw [hLHS, hRHS]
        · intro m v hv
          rw [hs1] at hv
          rcases List.mem_append.mp hv with h | h
          · simp only [List.map_map, List.mem_map, Function.comp] at h
            obtain ⟨x, _, hx⟩ := h
            injection hx with hm hv2
            exact hv2.symm
          · rcases List.mem_append.mp h with h | h
            · simp only [List.mem_map] at h
              obtain ⟨p, hptw, hx⟩ := h
              have hpT := mem_takeWhile_mem _ _ p hptw
              simp only [List.mem_map] at hpT
              obtain ⟨x, _, rfl⟩ := hpT
              injection hx with hm hv2
              exact hv2.symm
            · have hw := disable_no_writes s
                ("Swerve stop failed on steer motor: " ++ exc) _ h
              simp [Event.isWrite] at hw
        · obtain ⟨k2, hk2, heq⟩ := takeWhile_map_zero env s.steer_motors
          refine ⟨s.drive_motors.length + k2, ?_⟩
          rw [hs1]
          simp only [write_events_append, write_events_map_wr,
            disable_write_events, List.append_nil]
          rw [heq, take_append_add]
          simp only [List.map_map, List.map_append]
          rfl
    · -- a drive zero write fails
      have hs1 := stop_spec_fail1 env s exc hpa h1
      have hstate : (stop env s).1 =
          (disable s ("Swerve stop failed on drive motor: " ++ exc)).1 := by
        rw [hs1]
      have hf := disable_fields s ("Swerve stop failed on drive motor: " ++ exc)
      have hp := disable_preserves s ("Swerve stop failed on drive motor: " ++ exc)
      have h1b : first_fail env
          ((stop env s).1.drive_motors.map (fun m => (m, (0 : ℚ)))) = some exc := by
        rw [hstate, hp.1]
        exact h1
      have hs2 := stop_spec_fail1 env (stop env s).1 exc hpa h1b
      have hidem : disable (stop env s).1
          ("Swerve stop failed on drive motor: " ++ exc) = ((stop env s).1, []) := by
        apply disable_idem
        · rw [hstate]; exact hf.1
        · rw [hstate]; exact hf.2.1
        · rw [hstate]; exact hf.2.2
      refine ⟨?_, ?_, ?_, ?_⟩
      · rw [hs2, hidem]
      · have hRHS : write_events (stop env s).2 =
            ((s.drive_motors.map (fun m => (m, (0 : ℚ)))).takeWhile
              (fun p => (env.set_control p.1 p.2).isNone)).map
                (fun p => Event.write p.1 p.2) := by
          rw [hs1]
          simp only [write_events_append, write_events_map_wr,
            disable_write_events, List.append_nil]
        have hLHS : write_events (stop env (stop env s).1).2 =
            ((s.drive_motors.map (fun m => (m, (0 : ℚ)))).takeWhile
              (fun p => (env.set_control p.1 p.2).isNone)).map
                (fun p => Event.write p.1 p.2) := by
          rw [hs2, hidem]
          simp only [hstate, hp.1, write_events_append, write_events_map_wr,
            List.append_nil]
        rw [hLHS, hRHS]
      · intro m v hv
        rw [hs1] at hv
        rcases List.mem_append.mp hv with h | h
        · simp only [List.mem_map] at h
          obtain ⟨p, hptw, hx⟩ := h
          have hpD := mem_takeWhile_mem _ _ p hptw
          simp only [List.mem_map] at hpD
          obtain ⟨x, _, rfl⟩ := hpD
          injection hx with hm hv2
          exact hv2.symm
        · have hw := disable_no_writes s
            ("Swerve stop failed on drive motor: " ++ exc) _ h
          simp [Event.isWrite] at hw
      · obtain ⟨k1, hk1, heq⟩ := takeWhile_map_zero env s.drive_motors
        refine ⟨k1, ?_⟩
        rw [hs1]
        simp only [write_events_append, write_events_map_wr,
          disable_write_events, List.append_nil]
        rw [heq, take_append_le _ _ _ hk1]
        simp only [List.map_map]
        rfl

/-- Witness for C10 at the faulting environment: the second stop reproduces
the first stop in state and hardware writes. -/
theorem stop_idempotent_witness :
    (stop env_fault (stop env_fault clean_state).1).1 =
      (stop env_fault clean_state).1 ∧
    write_events (stop env_fault (stop env_fault clean_state).1).2 =
      write_events (stop env_fault clean_state).2 :=
  ⟨(stop_idempotent env_fault clean_state).1,
   (stop_idempotent env_fault clean_state).2.1⟩

end Drive801
